import Mathlib

/-!
# Verification of a faceswap slice

Shallow embedding of three components of the repository:

* `plugins/convert/color/avg_color.py` — the average-colour adjustment
  (`Color.process`), embedded in namespace `Faceswap.AvgColor`;
* `plugins/train/model/dfl_h128.py` — the DFL-H128 model definition
  (`Model.__init__`, `initialize`, `encoder`, `decoder`), embedded in
  namespace `Faceswap.DflH128`;
* `plugins/train/_config.py` — the training configuration registry
  (`Config.set_defaults`, `set_globals`, `load_module`), embedded in
  namespace `Faceswap.TrainConfig`.

Machine floats are modelled by exact rationals (`ℚ`); numpy dtypes are
tracked symbolically by a tag so that dtype-propagation statements are
expressible.  Fallible operations (numpy errors, failed imports, duplicate
registry keys) are modelled with `Option`.
-/

namespace Faceswap

namespace AvgColor

/-- The two numpy floating dtypes that occur at this interface. -/
inductive DType where
  | float32 : DType
  | float64 : DType
deriving DecidableEq

/-- Numpy result-type promotion restricted to the two float dtypes above:
`float32` with `float32` stays `float32`, anything else widens to `float64`. -/
def DType.promote : DType → DType → DType
  | DType.float32, DType.float32 => DType.float32
  | _, _ => DType.float64

/-- A numpy array of shape `(h, w, c)`: exact numeric entries plus a dtype
tag.  The spatial/channel shape is carried by the type indices. -/
structure NpArray (h w c : ℕ) where
  data : Fin h → Fin w → Fin c → ℚ
  dtype : DType

/-- The declared shape `(height, width, channels)` of an `NpArray`. -/
def NpArray.shape {h w c : ℕ} (_ : NpArray h w c) : ℕ × ℕ × ℕ := (h, w, c)

/-- Per-channel sum of the weights over the two spatial axes — the quantity
`scl` that `np.average` divides by at channel `k`. -/
def wsum {h w c : ℕ} (m : NpArray h w c) (k : Fin c) : ℚ :=
  ∑ i : Fin h, ∑ j : Fin w, m.data i j k

/-- Per-channel mask-weighted mean over the spatial axes: the value
`np.average(a, axis=(0, 1), weights=m)` yields at channel `k` when the
weight sum there is non-zero. -/
def wavg {h w c : ℕ} (a m : NpArray h w c) (k : Fin c) : ℚ :=
  (∑ i : Fin h, ∑ j : Fin w, m.data i j k * a.data i j k) / wsum m k

/-- `np.average(a, axis=(0, 1), weights=m)`: raises `ZeroDivisionError`
(modelled as `none`) when some channel's weight sum is zero, otherwise
returns the per-channel weighted means together with the promoted result
dtype. -/
def npAverage {h w c : ℕ} (a m : NpArray h w c) : Option ((Fin c → ℚ) × DType) :=
  if ∃ k, wsum m k = 0 then none
  else some (fun k => wavg a m k, DType.promote a.dtype m.dtype)

/-- `Color.process(old_face, new_face, raw_mask)` from
`plugins/convert/color/avg_color.py`:

    old_mean = np.average(old_face, axis=(0, 1), weights=raw_mask)
    new_mean = np.average(new_face, axis=(0, 1), weights=raw_mask)
    new_face_shifted = new_face + (old_mean - new_mean)
    return new_face_shifted

The returned array's dtype follows numpy promotion through the subtraction
of the two means and the broadcast addition. -/
def process {h w c : ℕ} (old_face new_face raw_mask : NpArray h w c) :
    Option (NpArray h w c) := do
  let old_mean ← npAverage old_face raw_mask
  let new_mean ← npAverage new_face raw_mask
  pure { data := fun i j k => new_face.data i j k + (old_mean.1 k - new_mean.1 k)
         dtype := DType.promote new_face.dtype (DType.promote old_mean.2 new_mean.2) }

/-- Concrete 1×1×3 example arrays (the spec's own test vector:
old `100`, new `50`, unit mask). -/
def oldFaceEx : NpArray 1 1 3 := ⟨fun _ _ _ => 100, DType.float32⟩

/-- Concrete transformed example array, all entries `50`, `float32`. -/
def newFaceEx : NpArray 1 1 3 := ⟨fun _ _ _ => 50, DType.float32⟩

/-- Concrete unit example mask, all weights `1`, `float32`. -/
def maskEx : NpArray 1 1 3 := ⟨fun _ _ _ => 1, DType.float32⟩

/-- Concrete all-zero example mask. -/
def zeroMaskEx : NpArray 1 1 3 := ⟨fun _ _ _ => 0, DType.float32⟩

/-- When every channel's weight sum is non-zero, `process` succeeds and its
result is the explicit record below (shift of the transformed data, promoted
dtype).  Shared workhorse for the theorems about `process`. -/
lemma process_eq_of_wsum_ne_zero {h w c : ℕ}
    (old_face new_face raw_mask : NpArray h w c)
    (hmask : ∀ k, wsum raw_mask k ≠ 0) :
    process old_face new_face raw_mask =
      some { data := fun i j k =>
               new_face.data i j k +
                 (wavg old_face raw_mask k - wavg new_face raw_mask k)
             dtype := DType.promote new_face.dtype
               (DType.promote (DType.promote old_face.dtype raw_mask.dtype)
                 (DType.promote new_face.dtype raw_mask.dtype)) } := by
  have hcond : ¬ ∃ k, wsum raw_mask k = 0 := by
    rintro ⟨k, hk⟩
    exact hmask k hk
  unfold process npAverage
  rw [if_neg hcond, if_neg hcond]
  rfl

/-- `DType.promote` is idempotent. -/
lemma DType.promote_self : ∀ d : DType, DType.promote d d = d
  | DType.float32 => rfl
  | DType.float64 => rfl

/-- C3: for equal-shaped inputs whose mask gives every channel a non-zero
weight sum, `process` returns exactly the transformed array shifted
uniformly, per channel, by the difference of the two mask-weighted means
(each mean taken independently per channel over the spatial axes); the
exact equation leaves values unclamped, so they may fall outside a display
range. -/
theorem process_shifts_by_weighted_mean_difference {h w c : ℕ}
    (old_face new_face raw_mask : NpArray h w c)
    (hmask : ∀ k, wsum raw_mask k ≠ 0) :
    ∃ out : NpArray h w c,
      process old_face new_face raw_mask = some out ∧
      ∀ i j k, out.data i j k =
        new_face.data i j k +
          (wavg old_face raw_mask k - wavg new_face raw_mask k) :=
  ⟨_, process_eq_of_wsum_ne_zero old_face new_face raw_mask hmask,
   fun _ _ _ => rfl⟩

/-- Witness for C3 at the spec's test vector (1×1×3, old `100`, new `50`,
unit mask): the mask hypothesis holds and the shift equation follows. -/
theorem process_shifts_by_weighted_mean_difference_witness :
    (∀ k, wsum maskEx k ≠ 0) ∧
    ∃ out : NpArray 1 1 3,
      process oldFaceEx newFaceEx maskEx = some out ∧
      ∀ i j k, out.data i j k =
        newFaceEx.data i j k + (wavg oldFaceEx maskEx k - wavg newFaceEx maskEx k) :=
  ⟨by intro k; simp [wsum, maskEx],
   process_shifts_by_weighted_mean_difference oldFaceEx newFaceEx maskEx
     (by intro k; simp [wsum, maskEx])⟩

/-- With non-negative weights, a channel whose weights are not all zero has a
strictly positive (hence non-zero) weight sum. -/
lemma wsum_ne_zero_of_nonneg {h w c : ℕ} (m : NpArray h w c)
    (hnonneg : ∀ i j k, 0 ≤ m.data i j k) (k : Fin c)
    (hk : ∃ i j, m.data i j k ≠ 0) : wsum m k ≠ 0 := by
  obtain ⟨i₀, j₀, hij⟩ := hk
  have hpos : 0 < wsum m k := by
    refine Finset.sum_pos' (fun i _ => Finset.sum_nonneg fun j _ => hnonneg i j k)
      ⟨i₀, Finset.mem_univ _, ?_⟩
    refine Finset.sum_pos' (fun j _ => hnonneg i₀ j k) ⟨j₀, Finset.mem_univ _, ?_⟩
    exact lt_of_le_of_ne (hnonneg i₀ j₀ k) (Ne.symm hij)
  exact ne_of_gt hpos

/-- C8: `process` has no guard for a degenerate mask.  With a fully-zero
mask every channel's weight sum vanishes, so the first `np.average` raises
(the call fails, modelled as `none`) instead of recovering; under the
caller precondition that the (non-negative) mask has at least one non-zero
weight in every channel, both weighted means are well-defined and the call
succeeds. -/
theorem process_zero_mask_unguarded {h w c : ℕ}
    (old_face new_face raw_mask : NpArray h w c) (hc : 0 < c) :
    ((∀ i j k, raw_mask.data i j k = 0) →
        process old_face new_face raw_mask = none) ∧
    ((∀ i j k, 0 ≤ raw_mask.data i j k) →
      (∀ k, ∃ i j, raw_mask.data i j k ≠ 0) →
        ∃ out, process old_face new_face raw_mask = some out) := by
  constructor
  · intro hzero
    have hcond : ∃ k, wsum raw_mask k = 0 := by
      refine ⟨⟨0, hc⟩, ?_⟩
      simp [wsum, hzero]
    unfold process npAverage
    rw [if_pos hcond]
    rfl
  · intro hnonneg hsome
    exact ⟨_, process_eq_of_wsum_ne_zero old_face new_face raw_mask
      fun k => wsum_ne_zero_of_nonneg raw_mask hnonneg k (hsome k)⟩

/-- Witness for C8 on concrete 1×1×3 arrays: with the all-zero mask the
call fails, and with the unit mask it succeeds. -/
theorem process_zero_mask_unguarded_witness :
    (0 < 3 ∧
      ((∀ i j k, zeroMaskEx.data i j k = 0) →
          process oldFaceEx newFaceEx zeroMaskEx = none)) ∧
    (∃ out, process oldFaceEx newFaceEx maskEx = some out) := by
  constructor
  · exact ⟨by decide,
      (process_zero_mask_unguarded oldFaceEx newFaceEx zeroMaskEx (by decide)).1⟩
  · exact (process_zero_mask_unguarded oldFaceEx newFaceEx maskEx (by decide)).2
      (by intro i j k; simp [maskEx])
      (by intro k; exact ⟨0, 0, by simp [maskEx]⟩)

/-- C9: for every valid input triple (well-defined weighted means, inputs
of one common dtype as documented), the array `process` returns has exactly
the shape and the element dtype of the transformed input `new_face`. -/
theorem process_preserves_shape_and_dtype {h w c : ℕ}
    (old_face new_face raw_mask : NpArray h w c)
    (hmask : ∀ k, wsum raw_mask k ≠ 0)
    (hold : old_face.dtype = new_face.dtype)
    (hraw : raw_mask.dtype = new_face.dtype) :
    ∃ out : NpArray h w c,
      process old_face new_face raw_mask = some out ∧
      out.shape = new_face.shape ∧ out.dtype = new_face.dtype := by
  refine ⟨_, process_eq_of_wsum_ne_zero old_face new_face raw_mask hmask, rfl, ?_⟩
  show DType.promote new_face.dtype
      (DType.promote (DType.promote old_face.dtype raw_mask.dtype)
        (DType.promote new_face.dtype raw_mask.dtype)) = new_face.dtype
  rw [hold, hraw, DType.promote_self, DType.promote_self, DType.promote_self]

/-- Witness for C9 at the concrete 1×1×3 `float32` triple. -/
theorem process_preserves_shape_and_dtype_witness :
    (∀ k, wsum maskEx k ≠ 0) ∧
    ∃ out : NpArray 1 1 3,
      process oldFaceEx newFaceEx maskEx = some out ∧
      out.shape = newFaceEx.shape ∧ out.dtype = newFaceEx.dtype :=
  ⟨by intro k; simp [wsum, maskEx],
   process_preserves_shape_and_dtype oldFaceEx newFaceEx maskEx
     (by intro k; simp [wsum, maskEx]) rfl rfl⟩

end AvgColor

namespace DflH128

/-- A tensor shape: the list of its dimensions. -/
abbrev TShape := List ℕ

/-- One down- or upsampling stage applied while building a network, recorded
with the filter count it was given. -/
inductive Stage where
  | conv : ℕ → Stage
  | upscale : ℕ → Stage
deriving DecidableEq

/-- Modelled from the spec: `self.blocks.conv(x, filters)` (from
`lib.model.nn_blocks`, outside this slice) is the encoder's strided
downsampling convolution block — it halves each spatial dimension
(stride 2 with `same` padding, hence `⌈d/2⌉`) and sets the channel count
to `filters`.  Only rank-3 tensors are accepted; anything else is a
graph-construction failure. -/
def convBlockShape (filters : ℕ) : TShape → Option TShape
  | [h, w, _] => some [(h + 1) / 2, (w + 1) / 2, filters]
  | _ => none

/-- Modelled from the spec: `self.blocks.upscale(x, filters)` (from
`lib.model.nn_blocks`, outside this slice) is the upsampling block
(convolution plus pixel shuffler) — it doubles each spatial dimension and
sets the channel count to `filters`. -/
def upscaleBlockShape (filters : ℕ) : TShape → Option TShape
  | [h, w, _] => some [2 * h, 2 * w, filters]
  | _ => none

/-- Keras `Flatten()`: collapses a tensor to one dimension holding the
product of all dimensions. -/
def flattenShape (dims : TShape) : Option TShape :=
  some [dims.foldl (· * ·) 1]

/-- Keras `Dense(units)` as applied in this model (to a rank-1 tensor):
replaces the dimension by `units`. -/
def denseShape (units : ℕ) : TShape → Option TShape
  | [_] => some [units]
  | _ => none

/-- Keras `Reshape(target)`: the element count must match the target's, and
this is checked when the graph is constructed, otherwise construction
fails. -/
def reshapeShape (target : TShape) (dims : TShape) : Option TShape :=
  if dims.foldl (· * ·) 1 = target.foldl (· * ·) 1 then some target else none

/-- Keras `Conv2D(filters, kernel_size=5, padding="same")` (stride 1):
preserves the spatial dimensions and sets the channel count. -/
def conv2dSameShape (filters : ℕ) : TShape → Option TShape
  | [h, w, _] => some [h, w, filters]
  | _ => none

/-- A symbolic tensor while a network is being built: its current shape
together with the trace of down/upsampling stages that produced it. -/
structure BTensor where
  shape : TShape
  stages : List Stage
deriving DecidableEq

/-- `self.blocks.conv(var, filters)` on a traced tensor. -/
def convB (filters : ℕ) (t : BTensor) : Option BTensor := do
  let s ← convBlockShape filters t.shape
  pure { shape := s, stages := t.stages ++ [Stage.conv filters] }

/-- `self.blocks.upscale(var, filters)` on a traced tensor. -/
def upscaleB (filters : ℕ) (t : BTensor) : Option BTensor := do
  let s ← upscaleBlockShape filters t.shape
  pure { shape := s, stages := t.stages ++ [Stage.upscale filters] }

/-- The model configuration fields set by `Model.__init__` of
`plugins/train/model/dfl_h128.py`: `kwargs["input_shape"] = (128, 128, 3)`
and `kwargs["encoder_dim"] = 256 if self.config["lowmem"] else 512`;
`mask_type` carries the resolved configuration value that `decoder` reads
through `self.config.get("mask_type", None)`. -/
structure Model where
  input_shape : TShape
  encoder_dim : ℕ
  mask_type : Option String

/-- `Model.__init__` for a resolved configuration. -/
def modelInit (lowmem : Bool) (mask_type : Option String) : Model :=
  { input_shape := [128, 128, 3]
    encoder_dim := if lowmem then 256 else 512
    mask_type := mask_type }

/-- Python truthiness of `self.config.get("mask_type", None)`: `None` and
the empty string are falsy, every non-empty string is truthy. -/
def truthy : Option String → Bool
  | none => false
  | some s => !(s == "")

/-- A built sub-network (the result of one `KerasModel(input, outputs)`
call): declared input shape, output shapes in order, and the trace of
sampling stages along its path. -/
structure SubNetwork where
  inputShape : TShape
  outputs : List TShape
  stages : List Stage
deriving DecidableEq

/-- The channel counts of a network's downsampling (conv-block) stages, in
application order. -/
def SubNetwork.downChannels (n : SubNetwork) : List ℕ :=
  n.stages.filterMap fun s =>
    match s with
    | Stage.conv f => some f
    | Stage.upscale _ => none

/-- The channel counts of a network's upsampling stages, in application
order. -/
def SubNetwork.upChannels (n : SubNetwork) : List ℕ :=
  n.stages.filterMap fun s =>
    match s with
    | Stage.conv _ => none
    | Stage.upscale f => some f

/-- `Model.encoder` of `plugins/train/model/dfl_h128.py` at the shape
level:

    input_ = Input(shape=self.input_shape)
    var_x = self.blocks.conv(var_x, 128)
    var_x = self.blocks.conv(var_x, 256)
    var_x = self.blocks.conv(var_x, 512)
    var_x = self.blocks.conv(var_x, 1024)
    var_x = Dense(self.encoder_dim)(Flatten()(var_x))
    var_x = Dense(8 * 8 * self.encoder_dim)(var_x)
    var_x = Reshape((8, 8, self.encoder_dim))(var_x)
    var_x = self.blocks.upscale(var_x, self.encoder_dim)
    return KerasModel(input_, var_x)
-/
def encoder (m : Model) : Option SubNetwork := do
  let input_ : BTensor := { shape := m.input_shape, stages := [] }
  let var_x := input_
  let var_x ← convB 128 var_x
  let var_x ← convB 256 var_x
  let var_x ← convB 512 var_x
  let var_x ← convB 1024 var_x
  let flat ← flattenShape var_x.shape
  let d1 ← denseShape m.encoder_dim flat
  let d2 ← denseShape (8 * 8 * m.encoder_dim) d1
  let r ← reshapeShape [8, 8, m.encoder_dim] d2
  let var_x : BTensor := { shape := r, stages := var_x.stages }
  let var_x ← upscaleB m.encoder_dim var_x
  pure { inputShape := input_.shape, outputs := [var_x.shape], stages := var_x.stages }

/-- `Model.decoder` of `plugins/train/model/dfl_h128.py` (the
conditional-mask-output variant the spec follows) at the shape level:

    input_ = Input(shape=(16, 16, self.encoder_dim))
    var = self.blocks.upscale(var, self.encoder_dim)
    var = self.blocks.upscale(var, self.encoder_dim // 2)
    var = self.blocks.upscale(var, self.encoder_dim // 4)
    var_x = Conv2D(3, kernel_size=5, padding="same", activation="sigmoid")(var)
    outputs = [var_x]
    if self.config.get("mask_type", None):
        var_y = Conv2D(1, kernel_size=5, padding="same", activation="sigmoid")(var)
        outputs.append(var_y)
    return KerasModel(input_, outputs=outputs)
-/
def decoder (m : Model) : Option SubNetwork := do
  let input_ : BTensor := { shape := [16, 16, m.encoder_dim], stages := [] }
  let var := input_
  let var ← upscaleB m.encoder_dim var
  let var ← upscaleB (m.encoder_dim / 2) var
  let var ← upscaleB (m.encoder_dim / 4) var
  let var_x ← conv2dSameShape 3 var.shape
  if truthy m.mask_type then
    let var_y ← conv2dSameShape 1 var.shape
    pure { inputShape := input_.shape, outputs := [var_x, var_y], stages := var.stages }
  else
    pure { inputShape := input_.shape, outputs := [var_x], stages := var.stages }

/-- `decoder` always constructs, with input `(16, 16, encoder_dim)`, three
upsampling stages halving the channel count, a `(128, 128, 3)` face output
and — exactly when `mask_type` is truthy — a second `(128, 128, 1)` mask
output. -/
lemma decoder_eq (m : Model) :
    decoder m = some
      { inputShape := [16, 16, m.encoder_dim]
        outputs := if truthy m.mask_type
                   then [[128, 128, 3], [128, 128, 1]]
                   else [[128, 128, 3]]
        stages := [Stage.upscale m.encoder_dim,
                   Stage.upscale (m.encoder_dim / 2),
                   Stage.upscale (m.encoder_dim / 4)] } := by
  unfold decoder upscaleB upscaleBlockShape conv2dSameShape
  cases htr : truthy m.mask_type <;> simp [htr]

/-- `encoder` on the model's `(128, 128, 3)` input always constructs: four
conv stages contract `128 → 8`, the reshape's element-count check passes
(`64·encoder_dim` on both sides), and the trailing upscale yields the
`(16, 16, encoder_dim)` latent. -/
lemma encoder_eq (m : Model) (hin : m.input_shape = [128, 128, 3]) :
    encoder m = some
      { inputShape := [128, 128, 3]
        outputs := [[16, 16, m.encoder_dim]]
        stages := [Stage.conv 128, Stage.conv 256, Stage.conv 512,
                   Stage.conv 1024, Stage.upscale m.encoder_dim] } := by
  unfold encoder convB convBlockShape flattenShape denseShape reshapeShape
    upscaleB upscaleBlockShape
  rw [hin]
  norm_num

/-- C2: for every resolved configuration, `decoder` returns a sub-network
with exactly one output tensor (the reconstructed image) when the resolved
`mask_type` is empty (absent or the empty string), and exactly two output
tensors (image plus a one-channel mask) when `mask_type` is non-empty; in
the empty case the outputs list simply has no mask entry — the mask branch
is architecturally absent, not a zeroed value. -/
theorem decoder_mask_output_iff_mask_type (lowmem : Bool) (mask_type : Option String) :
    ∃ net : SubNetwork,
      decoder (modelInit lowmem mask_type) = some net ∧
      ((mask_type = none ∨ mask_type = some "") →
        net.outputs = [[128, 128, 3]]) ∧
      (∀ s, mask_type = some s → s ≠ "" →
        net.outputs = [[128, 128, 3], [128, 128, 1]]) := by
  refine ⟨_, decoder_eq (modelInit lowmem mask_type), ?_, ?_⟩
  · rintro (h | h) <;> simp [h, modelInit, truthy]
  · rintro s rfl hs
    simp [modelInit, truthy, hs]

/-- Witness for C2 at the default configuration `mask_type = "none"` (a
non-empty string, hence truthy): the decoder has exactly the two outputs. -/
theorem decoder_mask_output_iff_mask_type_witness :
    ∃ net : SubNetwork,
      decoder (modelInit false (some "none")) = some net ∧
      net.outputs = [[128, 128, 3], [128, 128, 1]] := by
  obtain ⟨net, hnet, -, h2⟩ := decoder_mask_output_iff_mask_type false (some "none")
  exact ⟨net, hnet, h2 "none" rfl (by decide)⟩

/-- C7 counterexample: at the concrete non-lowmem configuration the encoder
has four downsampling stages with channel schedule `[128, 256, 512, 1024]`
while the decoder has only three upsampling stages with channel schedule
`[512, 256, 128]` — the stage counts differ and the decoder's schedule is
not the reverse of the encoder's, so the claimed exact mirror fails. -/
theorem decoder_does_not_mirror_encoder_counterexample :
    (encoder (modelInit false (some "none"))).map SubNetwork.downChannels =
      some [128, 256, 512, 1024] ∧
    (decoder (modelInit false (some "none"))).map SubNetwork.upChannels =
      some [512, 256, 128] ∧
    ([512, 256, 128] : List ℕ) ≠ [128, 256, 512, 1024].reverse ∧
    ([512, 256, 128] : List ℕ).length ≠ [128, 256, 512, 1024].length := by
  refine ⟨?_, ?_, by decide, by decide⟩
  · rw [encoder_eq (modelInit false (some "none")) rfl]
    rfl
  · rw [decoder_eq (modelInit false (some "none"))]
    rfl

/-- C7 amended: for every configuration (both `lowmem` settings, any
resolved `mask_type`), graph construction succeeds with the shape checks
satisfied at construction time — the decoder's declared input
`(16, 16, encoder_dim)` equals the encoder's output latent, the decoder's
three upsampling stages halve the channel count
(`encoder_dim, encoder_dim/2, encoder_dim/4`) and restore the `128 × 128`
input spatial size — but the decoder's upsampling stage count (3) is not
the encoder's downsampling stage count (4), and its channel schedule is
not the reverse of the encoder's `[128, 256, 512, 1024]`. -/
theorem decoder_inverts_spatial_contraction (lowmem : Bool) (mask_type : Option String) :
    ∃ enc dec : SubNetwork,
      encoder (modelInit lowmem mask_type) = some enc ∧
      decoder (modelInit lowmem mask_type) = some dec ∧
      dec.inputShape = [16, 16, (modelInit lowmem mask_type).encoder_dim] ∧
      enc.outputs = [dec.inputShape] ∧
      enc.downChannels = [128, 256, 512, 1024] ∧
      dec.upChannels = [(modelInit lowmem mask_type).encoder_dim,
                        (modelInit lowmem mask_type).encoder_dim / 2,
                        (modelInit lowmem mask_type).encoder_dim / 4] ∧
      (∀ out ∈ dec.outputs, out.take 2 = [128, 128]) ∧
      dec.upChannels.length = 3 ∧ enc.downChannels.length = 4 ∧
      dec.upChannels ≠ enc.downChannels.reverse := by
  refine ⟨_, _, encoder_eq (modelInit lowmem mask_type) rfl,
    decoder_eq (modelInit lowmem mask_type), rfl, rfl, rfl, rfl, ?_, rfl, rfl, ?_⟩
  · cases htr : truthy (modelInit lowmem mask_type).mask_type <;> simp [htr]
  · intro hEq
    have hlen := congrArg List.length hEq
    rw [List.length_reverse] at hlen
    have h34 : (3 : ℕ) = 4 := hlen
    exact absurd h34 (by decide)

/-- The runtime state `initialize` reads: the model's named sub-network
instances.  Object identity is modelled by a numeric object id — two
entries are the same Python object exactly when their ids are equal.
`networks` associates each network name with the id of the instance stored
under it (`self.networks[...]`; `lookup` returns the first binding). -/
structure ModelState where
  networks : List (String × ℕ)
  nextId : ℕ
deriving DecidableEq

/-- The state of a model before any sub-network has been built. -/
def emptyState : ModelState := { networks := [], nextId := 0 }

/-- Modelled from the spec: the base model class (outside this slice)
stores a newly built SubNetwork instance under a name, allocating a fresh
object identity — building is what creates a new, distinct instance. -/
def addNetwork (name : String) (st : ModelState) : ModelState :=
  { networks := st.networks ++ [(name, st.nextId)], nextId := st.nextId + 1 }

/-- Modelled from the spec: per build, the base model class (outside this
slice) builds exactly one encoder SubNetwork instance and one decoder
instance per identity slot, stored as `"encoder"`, `"decoder_a"` and
`"decoder_b"`. -/
def buildNetworks (st : ModelState) : ModelState :=
  addNetwork "decoder_b" (addNetwork "decoder_a" (addNetwork "encoder" st))

/-- How many of the stored network instances are encoders built under the
name `"encoder"`. -/
def encoderCount (st : ModelState) : ℕ :=
  (st.networks.filter fun p => p.1 == "encoder").length

/-- One composed predictor graph (`KerasModel([inp, mask], decoder(encoder(inp)))`):
the object ids of the encoder and decoder instances it references. -/
structure Predictor where
  encoderRef : Option ℕ
  decoderRef : Option ℕ
deriving DecidableEq

/-- `Model.initialize` of `plugins/train/model/dfl_h128.py`:

    ae_a = KerasModel([inp_a, mask_a],
        self.networks["decoder_a"].network(self.networks["encoder"].network(inp_a)))
    ae_b = KerasModel([inp_b, mask_b],
        self.networks["decoder_b"].network(self.networks["encoder"].network(inp_b)))
    self.add_predictors(ae_a, ae_b)

Both graphs look up the instance stored under `"encoder"` in the same
mapping, so they record the reference each lookup returns. -/
def initPredictors (st : ModelState) : Predictor × Predictor :=
  ({ encoderRef := (st.networks.lookup "encoder")
     decoderRef := (st.networks.lookup "decoder_a") },
   { encoderRef := (st.networks.lookup "encoder")
     decoderRef := (st.networks.lookup "decoder_b") })

/-- C1: in a build, exactly one encoder instance is created, and the two
predictor graphs `initialize` composes reference that identical instance —
the same object id, i.e. identity equality, not a structural copy (the two
decoder references, by contrast, are distinct instances); moreover the
sharing is forced by the code of `initialize` alone: over any state, both
graphs record the result of the same `self.networks["encoder"]` lookup. -/
theorem initialize_shares_single_encoder_instance :
    (∀ st : ModelState,
      (initPredictors st).1.encoderRef = (initPredictors st).2.encoderRef) ∧
    encoderCount (buildNetworks emptyState) = 1 ∧
    (initPredictors (buildNetworks emptyState)).1.encoderRef = some 0 ∧
    (initPredictors (buildNetworks emptyState)).2.encoderRef = some 0 ∧
    (initPredictors (buildNetworks emptyState)).1.decoderRef ≠
      (initPredictors (buildNetworks emptyState)).2.decoderRef ∧
    ((buildNetworks emptyState).networks.map Prod.snd).Nodup := by
  refine ⟨fun st => rfl, ?_, ?_, ?_, ?_, ?_⟩ <;> decide

end DflH128

namespace TrainConfig

/-- `os.path.splitext(name)[0]` for ordinary file names: the characters
before the last dot, or the whole name when there is no dot.  (Python's
special casing of leading dots never arises here: every caller passes
names ending in `"_defaults.py"`.)  Returns `none` when no dot occurs. -/
def splitextRootAux : List Char → Option (List Char)
  | [] => none
  | c :: cs =>
    match splitextRootAux cs with
    | some rest => some (c :: rest)
    | none => if c = '.' then some [] else none

/-- `os.path.splitext(s)[0]` on a string. -/
def splitextRoot (s : String) : String :=
  String.mk ((splitextRootAux s.data).getD s.data)

/-- Python `s.replace(pat, "")` for a non-empty pattern: scan left to
right, deleting every non-overlapping occurrence of `pat`.  `fuel` only
forces structural termination; each step consumes at least one character,
so `fuel = length` never runs out. -/
def removeAllAux (pat : List Char) : ℕ → List Char → List Char
  | _, [] => []
  | 0, l => l
  | Nat.succ fuel, c :: cs =>
    if pat.isPrefixOf (c :: cs) then
      removeAllAux pat fuel (List.drop pat.length (c :: cs))
    else c :: removeAllAux pat fuel cs

/-- Python `s.replace(pat, "")` on strings (non-empty `pat`). -/
def removeAll (s pat : String) : String :=
  String.mk (removeAllAux pat.data s.data.length s.data)

/-- Python `s.endswith(suffix)`. -/
def endsWithStr (s suffix : String) : Bool :=
  suffix.data.isSuffixOf s.data

/-- Python `s.split(".")` on the character list (always non-empty). -/
def splitDots : List Char → List (List Char)
  | [] => [[]]
  | c :: cs =>
    match splitDots cs with
    | [] => [[]]
    | p :: ps => if c = '.' then [] :: p :: ps else (c :: p) :: ps

/-- Python `s.split(".")[-1]`: the last dotted component. -/
def lastDotComponent (s : String) : String :=
  String.mk ((splitDots s.data).getLastD [])

/-- The datatype tags the registry supports (`bool`, `float`, `str`,
`int`). -/
inductive Datatype where
  | bool : Datatype
  | float : Datatype
  | str : Datatype
  | int : Datatype
deriving DecidableEq

/-- A configuration value of one of the supported datatypes. -/
inductive CValue where
  | vbool : Bool → CValue
  | vfloat : ℚ → CValue
  | vstr : String → CValue
  | vint : ℤ → CValue
deriving DecidableEq

/-- The keyword parameters of one `add_item` call beyond section and
title, exactly as passed: an optional parameter the call omits is
`none`. -/
structure ItemParams where
  datatype : Datatype
  default : CValue
  info : String
  min_max : Option (ℚ × ℚ) := none
  rounding : Option ℕ := none
  fixed : Option Bool := none
  choices : Option (List String) := none
deriving DecidableEq

/-- One registered option: its title plus the parameters it was registered
with. -/
structure ConfigItem where
  title : String
  params : ItemParams
deriving DecidableEq

/-- One registry section: title, help text and the registered options in
registration order. -/
structure ConfigSection where
  title : String
  info : String
  items : List ConfigItem
deriving DecidableEq

/-- The configuration registry: its sections in creation order. -/
structure FaceswapConfig where
  sections : List ConfigSection
deriving DecidableEq

/-- The registry before any section is added. -/
def emptyConfig : FaceswapConfig := { sections := [] }

/-- Modelled from the spec: `add_section(title, info)` (in `lib.config`,
outside this slice) appends a new empty section and fails if the title
already exists in the registry. -/
def add_section (cfg : FaceswapConfig) (title info : String) :
    Option FaceswapConfig :=
  if title ∈ cfg.sections.map ConfigSection.title then none
  else some { sections := cfg.sections ++ [{ title := title, info := info, items := [] }] }

/-- Modelled from the spec: `add_item(section, title, ...)` (in
`lib.config`, outside this slice) appends an option to an existing
section; it fails if the section is unknown or the title already exists in
that section.  (The unsupported-datatype failure cannot arise in this
embedding: `Datatype` has only the supported tags.) -/
def add_item (cfg : FaceswapConfig) (sec title : String) (ps : ItemParams) :
    Option FaceswapConfig :=
  if sec ∈ cfg.sections.map ConfigSection.title then
    if ∃ s ∈ cfg.sections, s.title = sec ∧ title ∈ s.items.map ConfigItem.title then
      none
    else
      some { sections := cfg.sections.map fun s =>
        if s.title = sec then { s with items := s.items ++ [{ title := title, params := ps }] }
        else s }
  else none

/-- `ADDITIONAL_INFO` of `plugins/train/_config.py`. -/
def ADDITIONAL_INFO : String :=
  "\nNB: Unless specifically stated, values changed here will only take effect " ++
  "when creating a new model."

/-- `Config.set_globals` of `plugins/train/_config.py`: adds the `global`
section and registers the nine baseline options with exactly the keyword
arguments of the source.  The `choices` of `mask_type` come from
`get_available_masks()` in `lib.model.masks` (outside this slice), passed
here as the parameter `availableMasks`. -/
def set_globals (cfg : FaceswapConfig) (availableMasks : List String) :
    Option FaceswapConfig := do
  let sectionT := "global"
  let cfg ← add_section cfg sectionT ("Options that apply to all models" ++ ADDITIONAL_INFO)
  let cfg ← add_item cfg sectionT "icnr_init"
    { datatype := Datatype.bool, default := CValue.vbool false
      info := "\nUse ICNR to tile the default initializer in a repeating pattern. \n" ++
        "This strategy is designed for pairing with sub-pixel / pixel shuffler \n" ++
        "to reduce the 'checkerboard effect' in image reconstruction. \n" ++
        "https://arxiv.org/ftp/arxiv/papers/1707/1707.02937.pdf \n" }
  let cfg ← add_item cfg sectionT "conv_aware_init"
    { datatype := Datatype.bool, default := CValue.vbool false
      info := "Use Convolution Aware Initialization for convolutional layers. \n" ++
        "This can help eradicate the vanishing and exploding gradient problem \n" ++
        "as well as lead to higher accuracy, lower loss and faster convergence. \n" ++
        "NB This can use more VRAM when creating a new model so you may want to \n" ++
        "lower the batch size for the first run. The batch size can be raised \n" ++
        "again when reloading the model. \n" ++
        "NB: Building the model will likely take several minutes as the calculations \n" ++
        "for this initialization technique are expensive. \n" }
  let cfg ← add_item cfg sectionT "subpixel_upscaling"
    { datatype := Datatype.bool, default := CValue.vbool false
      info := "\nUse subpixel upscaling rather than pixel shuffler. These techniques \n" ++
        "are both designed to produce better resolving upscaling than other \n" ++
        "methods. Each perform the same operations, but using different TF opts.\n" ++
        "https://arxiv.org/pdf/1609.05158.pdf \n" }
  let cfg ← add_item cfg sectionT "reflect_padding"
    { datatype := Datatype.bool, default := CValue.vbool false
      info := "\nUse reflection padding rather than zero padding with convolutions. \n" ++
        "Each convolution must pad the image boundaries to maintain the proper \n" ++
        "sizing. More complex padding schemes can reduce artifacts at the \n" ++
        "border of the image.\n" ++
        "http://www-cs.engr.ccny.cuny.edu/~wolberg/cs470/hw/hw2_pad.txt \n" }
  let cfg ← add_item cfg sectionT "penalized_mask_loss"
    { datatype := Datatype.bool, default := CValue.vbool true
      info := "\nImage loss function is weighted by mask presence. For areas of \n" ++
        "the image without the facial mask, reconstuction errors will be \n" ++
        "ignored while the masked face area is prioritized. May increase \n" ++
        "overall quality by focusing attention on the core face area.\n" }
  let cfg ← add_item cfg sectionT "image_loss_function"
    { datatype := Datatype.str, default := CValue.vstr "Mean_Absolute_Error"
      choices := some ["Mean_Absolute_Error", "Mean_Squared_Error", "LogCosh",
        "Smooth_L1", "L_inf_norm", "SSIM", "GMSD", "Pixel_Gradient_Difference"]
      info := "\nMean_Absolute_Error ---\n" ++
        "MAE will guide reconstructions of each pixel towards its median \n" ++
        "value in the training dataset. Robust to outliers but as a median, \n" ++
        "it can potentially ignore some infrequent image types in the dataset. \n" ++
        "\nMean_Squared_Error ---\n" ++
        "MSE will guide reconstructions of each pixel towards its average \n" ++
        "value in the training dataset. As an avg, it will be suspectible to \n" ++
        "outliers and typically produces slightly blurrier results. \n" ++
        "\nLogCosh ---\n" ++
        "log(cosh(x)) acts similiar to MSE for small errors and to MAE for large \n" ++
        "errors. Like MSE, it is very stable and prevents overshoots when errors \n" ++
        "are near zero. Like MAE, it is robust to outliers. \n" ++
        "\nSmooth_L1 ---\n" ++
        "Modification of the MAE loss to correct two of its disadvantages. \n" ++
        "This loss has improved stability and better guidance for small errors. \n" ++
        "\nL_inf_norm ---\n" ++
        "The L_inf norm will reduce the largest individual pixel error in an image. \n" ++
        "As each largest error is minimized sequentially, the overall error is \n" ++
        "improved. This loss will be extremely focused on outliers. \n" ++
        "\nSSIM - Structural Similarity Index Metric ---\n" ++
        "SSIM is a perception-based loss that considers changes in texture, \n" ++
        "luminance, contrast, and local spatial statistics of an image. \n" ++
        "Potentially better textural, and realistic looking images. \n" ++
        "\nGMSD - Gradient Magnitude Similarity Deviation ---\n" ++
        "GMSD seeks to match the differences between pixel color changes \n" ++
        "when moving from pixel to pixel in an image. Corresponding pixels in \n" ++
        "two images will have a difference with their neighboring pixels. \n" ++
        "The global standard deviation of the pixel to pixel differences for \n" ++
        "each image is calculated and the differnece in this metric is minimized. \n" ++
        "\nPixel_Gradient_Difference ---\n" ++
        "Instead of minimizing the difference between the absolute value of \n" ++
        "each pixel in two reference images, compute the pixel to pixel \n" ++
        "spatial difference in each image and then minimize that difference \n" ++
        "between two images. Allows for large color shifts,but maintains the \n" ++
        "structure of the image.\n" }
  let cfg ← add_item cfg sectionT "mask_type"
    { datatype := Datatype.str, default := CValue.vstr "none"
      choices := some availableMasks
      info := "The mask to be used for training:" ++
        "\n\t none: Doesn't use any mask." ++
        "\n\t components: An improved face hull mask using a facehull of 8 " ++
        "facial parts" ++
        "\n\t dfl_full: An improved face hull mask using a facehull of 3 " ++
        "facial parts" ++
        "\n\t extended: Based on components mask. Extends the eyebrow points " ++
        "to further up the forehead. May perform badly on difficult angles." ++
        "\n\t facehull: Face cutout based on landmarks" }
  let cfg ← add_item cfg sectionT "learning_rate"
    { datatype := Datatype.float, default := CValue.vfloat 5e-5
      min_max := some (1e-6, 1e-4), rounding := some 6, fixed := some false
      info := "Learning rate - how fast your network will learn (how large are \n" ++
        "the modifications to the model weights after one batch of training).\n" ++
        "Values that are too large might result in model crashes and the \n" ++
        "inability of the model to find the best solution.\n" ++
        "Values that are too small might be unable to escape from dead-ends \n" ++
        "and find the best global minimum." }
  let cfg ← add_item cfg sectionT "coverage"
    { datatype := Datatype.float, default := CValue.vfloat 68.75
      min_max := some (62.5, 100.0), fixed := some true
      info := "How much of the extracted image to train on. Generally the model is optimized" ++
        "\nto the default value. Sensible values to use are:" ++
        "\n\t62.5%% spans from eyebrow to eyebrow." ++
        "\n\t75.0%% spans from temple to temple." ++
        "\n\t87.5%% spans from ear to ear." ++
        "\n\t100.0%% is a mugshot." }
  pure cfg

/-- The registration signature of an option: everything `set_globals`
passes for it except the free-form `info` text. -/
def itemSig (it : ConfigItem) :
    String × Datatype × CValue × Option (ℚ × ℚ) × Option ℕ × Option Bool ×
      Option (List String) :=
  (it.title, it.params.datatype, it.params.default, it.params.min_max,
   it.params.rounding, it.params.fixed, it.params.choices)

/-- C4: whatever the dynamically available mask identifiers are,
`set_globals` on a fresh registry creates exactly the `global` section and
registers exactly the nine baseline options, in order, with exactly the
stated datatypes, defaults, choice sets, bounds, rounding and fixed-step
flags — and no other option. -/
theorem set_globals_registers_exactly (availableMasks : List String) :
    ∃ cfg : FaceswapConfig,
      set_globals emptyConfig availableMasks = some cfg ∧
      cfg.sections.map ConfigSection.title = ["global"] ∧
      cfg.sections.map (fun s => s.items.map itemSig) =
        [[("icnr_init", Datatype.bool, CValue.vbool false, none, none, none, none),
          ("conv_aware_init", Datatype.bool, CValue.vbool false, none, none, none, none),
          ("subpixel_upscaling", Datatype.bool, CValue.vbool false, none, none, none, none),
          ("reflect_padding", Datatype.bool, CValue.vbool false, none, none, none, none),
          ("penalized_mask_loss", Datatype.bool, CValue.vbool true, none, none, none, none),
          ("image_loss_function", Datatype.str, CValue.vstr "Mean_Absolute_Error",
            none, none, none,
            some ["Mean_Absolute_Error", "Mean_Squared_Error", "LogCosh", "Smooth_L1",
                  "L_inf_norm", "SSIM", "GMSD", "Pixel_Gradient_Difference"]),
          ("mask_type", Datatype.str, CValue.vstr "none", none, none, none,
            some availableMasks),
          ("learning_rate", Datatype.float, CValue.vfloat 5e-5, some (1e-6, 1e-4),
            some 6, some false, none),
          ("coverage", Datatype.float, CValue.vfloat 68.75, some (62.5, 100.0),
            none, some true, none)]] :=
  ⟨_, rfl, rfl, rfl⟩

/-- What a defaults module exposes once imported: `_HELPTEXT` and
`_DEFAULTS`, each `none` when the attribute is missing (accessing it then
raises `AttributeError`). -/
structure DefaultsModule where
  helptext : Option String
  defaults : Option (List (String × ItemParams))

/-- The import environment: maps a dotted module path to the imported
module, or `none` when the import fails.  Imports are outside this slice;
the environment is the boundary `load_module` calls into. -/
abbrev ModuleEnv := String → Option DefaultsModule

/-- The section title `load_module` computes for a defaults file:
`".".join((plugin_type, module.replace("_defaults", "")))` where `module`
is the file name without its extension. -/
def sectionTitleFor (filename plugin_type : String) : String :=
  plugin_type ++ "." ++ removeAll (splitextRoot filename) "_defaults"

/-- `Config.load_module(filename, module_path, plugin_type)` of
`plugins/train/_config.py`:

    module = os.path.splitext(filename)[0]
    section = ".".join((plugin_type, module.replace("_defaults", "")))
    mod = import_module("{}.{}".format(module_path, module))
    helptext = mod._HELPTEXT
    helptext += ADDITIONAL_INFO if module_path.endswith("model") else ""
    self.add_section(title=section, info=helptext)
    for key, val in mod._DEFAULTS.items():
        self.add_item(section=section, title=key, **val)

Every raised exception (failed import, missing attribute, duplicate
section or option title) aborts the call, modelled as `none`. -/
def load_module (env : ModuleEnv) (cfg : FaceswapConfig)
    (filename module_path plugin_type : String) : Option FaceswapConfig := do
  let module := splitextRoot filename
  let sectionT := sectionTitleFor filename plugin_type
  let mod ← env (module_path ++ "." ++ module)
  let helptext ← mod.helptext
  let helptext := helptext ++ (if endsWithStr module_path "model" then ADDITIONAL_INFO else "")
  let cfg ← add_section cfg sectionT helptext
  let ds ← mod.defaults
  ds.foldlM (fun c kv => add_item c sectionT kv.1 kv.2) cfg

/-- One directory of the plugin tree as the walk of `set_defaults` sees
it: the dotted import path derived from the directory path (via
`full_path_split(dirpath.replace(base_path, ""))`, outside this slice) and
the file names the directory holds, in enumeration order. -/
structure PluginDir where
  import_path : String
  filenames : List String

/-- The defaults files of a directory, in enumeration order
(`fname.endswith("_defaults.py")`). -/
def dirDefaultsFiles (d : PluginDir) : List String :=
  d.filenames.filter fun f => endsWithStr f "_defaults.py"

/-- `Config.set_defaults` of `plugins/train/_config.py` over an abstract
walk: register the global options, then for every directory holding
defaults files derive `plugin_type` as the last dotted component of
the dotted path and load each defaults file in order.  (The source's
`continue` on a directory without defaults files is the fold over an empty
file list.) -/
def set_defaults (env : ModuleEnv) (availableMasks : List String)
    (tree : List PluginDir) : Option FaceswapConfig := do
  let cfg ← set_globals emptyConfig availableMasks
  tree.foldlM (fun cfg dir =>
    let plugin_type := lastDotComponent dir.import_path
    (dirDefaultsFiles dir).foldlM
      (fun c f => load_module env c f dir.import_path plugin_type) cfg) cfg

/-- The dotted module path under which a defaults file of a directory is
imported. -/
def moduleKey (d : PluginDir) (f : String) : String :=
  d.import_path ++ "." ++ splitextRoot f

/-- A defaults module is well formed when its import succeeds, both
required artifacts are present, and its option keys are distinct. -/
def wellFormedAt (env : ModuleEnv) (d : PluginDir) (f : String) : Prop :=
  ∃ ht ds, env (moduleKey d f) = some ⟨some ht, some ds⟩ ∧ (ds.map Prod.fst).Nodup

/-- A defaults module is malformed when its import fails or either
required artifact is missing. -/
def malformedAt (env : ModuleEnv) (d : PluginDir) (f : String) : Prop :=
  match env (moduleKey d f) with
  | none => True
  | some mod => mod.helptext = none ∨ mod.defaults = none

/-- The section that loading one well-formed defaults file is expected to
create, phrased from the spec: title `"<plugin_type>.<module_name>"`, info
the module's help text with the fixed addendum exactly for `model` paths,
items the module's option-definition mapping. -/
def expectedSection (env : ModuleEnv) (d : PluginDir) (f : String) : ConfigSection :=
  { title := sectionTitleFor f (lastDotComponent d.import_path)
    info := (match env (moduleKey d f) with
             | some mod => mod.helptext.getD ""
             | none => "") ++
      (if endsWithStr d.import_path "model" then ADDITIONAL_INFO else "")
    items := (match env (moduleKey d f) with
              | some mod => (mod.defaults.getD []).map fun kv =>
                  { title := kv.1, params := kv.2 }
              | none => []) }

/-- All sections discovery is expected to create for a tree, in walk
order. -/
def expectedSections (env : ModuleEnv) (tree : List PluginDir) : List ConfigSection :=
  tree.flatMap fun d => (dirDefaultsFiles d).map (expectedSection env d)

/-- The number of defaults files in a tree. -/
def treeDefaultsCount (tree : List PluginDir) : ℕ :=
  (tree.map fun d => (dirDefaultsFiles d).length).sum

/-- Updating the section named `sec` leaves a section list without that
title unchanged. -/
lemma map_update_not_mem (sec : String) (g : ConfigSection → ConfigSection)
    (l : List ConfigSection) (h : sec ∉ l.map ConfigSection.title) :
    (l.map fun s => if s.title = sec then g s else s) = l := by
  induction l with
  | nil => rfl
  | cons a l ih =>
    rw [List.map_cons, List.mem_cons] at h
    push_neg at h
    rw [List.map_cons, if_neg fun hh => h.1 hh.symm, ih h.2]

/-- Folding `add_item` over a list of fresh, distinct keys targeting the
last section of the registry appends exactly those options to it. -/
lemma foldlM_add_item_eq (sec : String) (ds : List (String × ItemParams))
    (pre : List ConfigSection) (s : ConfigSection)
    (hsec : s.title = sec)
    (hpre : sec ∉ pre.map ConfigSection.title)
    (hnodup : ((s.items.map ConfigItem.title) ++ ds.map Prod.fst).Nodup) :
    ds.foldlM (fun c kv => add_item c sec kv.1 kv.2)
        (FaceswapConfig.mk (pre ++ [s])) =
      some (FaceswapConfig.mk (pre ++
        [{ s with items := s.items ++ ds.map fun kv => { title := kv.1, params := kv.2 } }])) := by
  induction ds generalizing s with
  | nil => simp
  | cons kv rest ih =>
    have hmem : sec ∈ (pre ++ [s]).map ConfigSection.title := by
      rw [List.map_append, List.mem_append]
      exact Or.inr (by simp [hsec])
    have hdisj := (List.nodup_append.mp hnodup).2.2
    have hfresh : kv.1 ∉ s.items.map ConfigItem.title := fun hk =>
      hdisj hk (List.mem_cons_self _ _)
    have hstep : add_item ⟨pre ++ [s]⟩ sec kv.1 kv.2 =
        some ⟨pre ++ [{ s with items := s.items ++ [{ title := kv.1, params := kv.2 }] }]⟩ := by
      unfold add_item
      rw [if_pos hmem, if_neg ?hdup]
      · congr 1
        rw [List.map_append, map_update_not_mem sec _ pre hpre]
        simp [hsec]
      case hdup =>
        rintro ⟨s', hs', hts', hins'⟩
        rcases List.mem_append.mp hs' with h' | h'
        · exact hpre (hts' ▸ List.mem_map_of_mem ConfigSection.title h')
        · rw [List.mem_singleton] at h'
          subst h'
          exact hfresh hins'
    rw [List.foldlM_cons, hstep]
    have hnodup' : (((s.items ++ [({ title := kv.1, params := kv.2 } : ConfigItem)]).map
        ConfigItem.title) ++ rest.map Prod.fst).Nodup := by
      rw [List.map_append, List.append_assoc]
      simpa using hnodup
    have hrec := ih { s with items := s.items ++ [{ title := kv.1, params := kv.2 }] }
      hsec hnodup'
    show rest.foldlM (fun c kv => add_item c sec kv.1 kv.2)
        (FaceswapConfig.mk (pre ++
          [{ s with items := s.items ++ [{ title := kv.1, params := kv.2 }] }])) = _
    rw [hrec]
    simp only [List.append_assoc, List.singleton_append]
    rfl

/-- Loading one well-formed defaults file whose derived section title is
fresh appends exactly its expected section to the registry. -/
lemma load_module_eq (env : ModuleEnv) (d : PluginDir) (f : String)
    (cfg : FaceswapConfig) (hwf : wellFormedAt env d f)
    (hfresh : (expectedSection env d f).title ∉ cfg.sections.map ConfigSection.title) :
    load_module env cfg f d.import_path (lastDotComponent d.import_path) =
      some ⟨cfg.sections ++ [expectedSection env d f]⟩ := by
  obtain ⟨ht, ds, henv, hnodup⟩ := hwf
  have hkey : d.import_path ++ "." ++ splitextRoot f = moduleKey d f := rfl
  have htitle : (expectedSection env d f).title =
      sectionTitleFor f (lastDotComponent d.import_path) := rfl
  rw [htitle] at hfresh
  simp only [load_module, hkey, henv, Option.bind_eq_bind, Option.some_bind]
  unfold add_section
  rw [if_neg hfresh]
  simp only [Option.some_bind]
  rw [foldlM_add_item_eq (sectionTitleFor f (lastDotComponent d.import_path)) ds
    cfg.sections
    { title := sectionTitleFor f (lastDotComponent d.import_path)
      info := ht ++ if endsWithStr d.import_path "model" then ADDITIONAL_INFO else ""
      items := [] } rfl hfresh (by simpa using hnodup)]
  simp [expectedSection, henv]

/-- Folding `load_module` over the defaults files of one directory appends
their expected sections in order, provided each module is well formed and
no section title collides. -/
lemma load_fold_eq (env : ModuleEnv) (d : PluginDir) (fs : List String)
    (cfg : FaceswapConfig)
    (hwf : ∀ f ∈ fs, wellFormedAt env d f)
    (hfresh : ((cfg.sections ++ fs.map (expectedSection env d)).map
      ConfigSection.title).Nodup) :
    fs.foldlM (fun c f => load_module env c f d.import_path
        (lastDotComponent d.import_path)) cfg =
      some ⟨cfg.sections ++ fs.map (expectedSection env d)⟩ := by
  induction fs generalizing cfg with
  | nil => simp
  | cons f fs ih =>
    rw [List.map_cons, List.map_append, List.map_cons] at hfresh
    have hdisj := (List.nodup_append.mp hfresh).2.2
    have hf : (expectedSection env d f).title ∉ cfg.sections.map ConfigSection.title :=
      fun hk => hdisj hk (List.mem_cons_self _ _)
    rw [List.foldlM_cons, load_module_eq env d f cfg (hwf f (List.mem_cons_self _ _)) hf]
    show fs.foldlM _ (FaceswapConfig.mk (cfg.sections ++ [expectedSection env d f])) = _
    rw [ih ⟨cfg.sections ++ [expectedSection env d f]⟩
      (fun g hg => hwf g (List.mem_cons_of_mem _ hg)) ?fresh]
    · simp
    case fresh =>
      show (((cfg.sections ++ [expectedSection env d f]) ++
        fs.map (expectedSection env d)).map ConfigSection.title).Nodup
      rw [List.append_assoc, List.singleton_append, List.map_append, List.map_cons]
      exact hfresh

/-- `expectedSections` over a tree beginning with a directory. -/
lemma expectedSections_cons (env : ModuleEnv) (d : PluginDir) (tree : List PluginDir) :
    expectedSections env (d :: tree) =
      (dirDefaultsFiles d).map (expectedSection env d) ++ expectedSections env tree := by
  simp [expectedSections]

/-- Folding the per-directory loads over a whole tree appends all expected
sections in walk order. -/
lemma tree_fold_eq (env : ModuleEnv) (tree : List PluginDir) (cfg : FaceswapConfig)
    (hwf : ∀ d ∈ tree, ∀ f ∈ dirDefaultsFiles d, wellFormedAt env d f)
    (hfresh : ((cfg.sections ++ expectedSections env tree).map
      ConfigSection.title).Nodup) :
    tree.foldlM (fun cfg dir =>
        (dirDefaultsFiles dir).foldlM
          (fun c f => load_module env c f dir.import_path
            (lastDotComponent dir.import_path)) cfg) cfg =
      some ⟨cfg.sections ++ expectedSections env tree⟩ := by
  induction tree generalizing cfg with
  | nil => simp [expectedSections]
  | cons d tree ih =>
    rw [expectedSections_cons] at hfresh ⊢
    have hsub : ((cfg.sections ++ (dirDefaultsFiles d).map (expectedSection env d)).map
        ConfigSection.title).Nodup := by
      refine List.Nodup.sublist (List.Sublist.map ConfigSection.title ?_) hfresh
      rw [← List.append_assoc]
      exact List.sublist_append_left _ _
    have hfold := load_fold_eq env d (dirDefaultsFiles d) cfg
      (hwf d (List.mem_cons_self _ _)) hsub
    rw [List.foldlM_cons, hfold]
    show tree.foldlM _ (FaceswapConfig.mk (cfg.sections ++
      (dirDefaultsFiles d).map (expectedSection env d))) = _
    rw [ih ⟨cfg.sections ++ (dirDefaultsFiles d).map (expectedSection env d)⟩
      (fun d2 hd2 => hwf d2 (List.mem_cons_of_mem _ hd2)) ?treefresh]
    · simp
    case treefresh =>
      show (((cfg.sections ++ (dirDefaultsFiles d).map (expectedSection env d)) ++
        expectedSections env tree).map ConfigSection.title).Nodup
      rw [List.append_assoc]
      exact hfresh

/-- The number of expected sections equals the number of defaults files. -/
lemma expectedSections_length (env : ModuleEnv) (tree : List PluginDir) :
    (expectedSections env tree).length = treeDefaultsCount tree := by
  unfold expectedSections treeDefaultsCount
  induction tree with
  | nil => rfl
  | cons d t ih =>
    simp only [List.flatMap_cons, List.map_cons, List.length_append, List.sum_cons,
      List.length_map, ih]

/-- C5: discovery over a tree of well-formed defaults files — one module
per file, each exposing both artifacts, with no colliding section titles —
creates exactly one new section per defaults file beyond `global`: the
registry holds `1 + N` sections, the first titled `global`, and the rest
are precisely the expected sections, each named
`"<plugin_type>.<module_name>"`, carrying the module's help text as its
info (with the fixed addendum appended exactly for `model` paths) and
populated from the module's option mapping via `add_item`. -/
theorem set_defaults_creates_one_section_per_file
    (env : ModuleEnv) (availableMasks : List String) (tree : List PluginDir)
    (hwf : ∀ d ∈ tree, ∀ f ∈ dirDefaultsFiles d, wellFormedAt env d f)
    (hfresh : ("global" :: (expectedSections env tree).map ConfigSection.title).Nodup) :
    ∃ cfg : FaceswapConfig,
      set_defaults env availableMasks tree = some cfg ∧
      cfg.sections.length = 1 + treeDefaultsCount tree ∧
      (cfg.sections.map ConfigSection.title).head? = some "global" ∧
      cfg.sections.tail = expectedSections env tree := by
  obtain ⟨g, hgeq, hgt⟩ : ∃ g, set_globals emptyConfig availableMasks = some g ∧
      g.sections.map ConfigSection.title = ["global"] := ⟨_, rfl, rfl⟩
  have hlen1 : g.sections.length = 1 := by
    have := congrArg List.length hgt
    simpa using this
  obtain ⟨gs, hgs⟩ := List.length_eq_one.mp hlen1
  have hfresh' : ((g.sections ++ expectedSections env tree).map
      ConfigSection.title).Nodup := by
    rw [List.map_append, hgt]
    simpa using hfresh
  have hfold := tree_fold_eq env tree g hwf hfresh'
  have hcount := expectedSections_length env tree
  refine ⟨⟨g.sections ++ expectedSections env tree⟩, ?_, ?_, ?_, ?_⟩
  · simp only [set_defaults, hgeq, Option.bind_eq_bind, Option.some_bind]
    exact hfold
  · simp [hlen1, hcount]
  · rw [List.map_append, hgt]
    rfl
  · rw [hgs]
    rfl

/-- A concrete plugin tree for the discovery theorems: one `model`
directory holding one defaults file and one unrelated file the filter
skips. -/
def exDir : PluginDir :=
  { import_path := "plugins.train.model"
    filenames := ["dfl_h128_defaults.py", "readme.txt"] }

/-- The option parameters the concrete defaults module registers. -/
def exParams : ItemParams :=
  { datatype := Datatype.bool, default := CValue.vbool false
    info := "Lower memory mode. Set to True if having memory problems." }

/-- A concrete import environment holding exactly the one well-formed
defaults module of `exDir`. -/
def exEnv : ModuleEnv := fun key =>
  if key = "plugins.train.model.dfl_h128_defaults" then
    some { helptext := some "DFL H128 Model (Adapted from DeepFaceLab)"
           defaults := some [("lowmem", exParams)] }
  else none

/-- Witness for C5 on the concrete one-file tree: both hypotheses hold and
discovery yields exactly `1 + 1` sections, `global` first. -/
theorem set_defaults_creates_one_section_per_file_witness :
    (∀ d ∈ [exDir], ∀ f ∈ dirDefaultsFiles d, wellFormedAt exEnv d f) ∧
    ("global" :: (expectedSections exEnv [exDir]).map ConfigSection.title).Nodup ∧
    ∃ cfg : FaceswapConfig,
      set_defaults exEnv ["none", "components"] [exDir] = some cfg ∧
      cfg.sections.length = 1 + treeDefaultsCount [exDir] ∧
      (cfg.sections.map ConfigSection.title).head? = some "global" ∧
      cfg.sections.tail = expectedSections exEnv [exDir] := by
  have h1 : ∀ d ∈ [exDir], ∀ f ∈ dirDefaultsFiles d, wellFormedAt exEnv d f := by
    intro d hd f hf
    rw [List.mem_singleton] at hd
    subst hd
    have hfiles : dirDefaultsFiles exDir = ["dfl_h128_defaults.py"] := by decide
    rw [hfiles, List.mem_singleton] at hf
    subst hf
    exact ⟨"DFL H128 Model (Adapted from DeepFaceLab)", [("lowmem", exParams)],
      rfl, by decide⟩
  have h2 : ("global" :: (expectedSections exEnv [exDir]).map
      ConfigSection.title).Nodup := by decide
  exact ⟨h1, h2,
    set_defaults_creates_one_section_per_file exEnv ["none", "components"] [exDir] h1 h2⟩

/-- Success of an `Option`-valued left fold means every list element was
applied successfully to some accumulator. -/
lemma foldlM_isSome_of_mem {α β : Type} (g : β → α → Option β) (l : List α)
    (b r : β) (hfold : l.foldlM g b = some r) :
    ∀ a ∈ l, ∃ acc, (g acc a).isSome := by
  induction l generalizing b with
  | nil =>
    intro a ha
    cases ha
  | cons x xs ih =>
    rw [List.foldlM_cons] at hfold
    cases hgx : g b x with
    | none =>
      rw [hgx] at hfold
      simp [Option.bind_eq_bind] at hfold
    | some b2 =>
      rw [hgx] at hfold
      simp only [Option.bind_eq_bind, Option.some_bind] at hfold
      intro a ha
      rcases List.mem_cons.mp ha with rfl | ha2
      · exact ⟨b, by rw [hgx]; rfl⟩
      · exact ih b2 hfold a ha2

/-- A `load_module` call that succeeds imported its module and found both
required artifacts present. -/
lemma load_module_isSome_sound (env : ModuleEnv) (cfg : FaceswapConfig)
    (f mp pt : String)
    (h : (load_module env cfg f mp pt).isSome) :
    ∃ mod, env (mp ++ "." ++ splitextRoot f) = some mod ∧
      mod.helptext.isSome ∧ mod.defaults.isSome := by
  rcases henv : env (mp ++ "." ++ splitextRoot f) with _ | mod
  · exact absurd h (by simp [load_module, henv, Option.bind_eq_bind])
  · refine ⟨mod, rfl, ?_, ?_⟩
    · rcases hht : mod.helptext with _ | ht
      · exact absurd h (by simp [load_module, henv, hht, Option.bind_eq_bind])
      · rfl
    · rcases hds : mod.defaults with _ | ds
      · rcases hht : mod.helptext with _ | ht
        · exact absurd h (by simp [load_module, henv, hht, Option.bind_eq_bind])
        · refine absurd h ?_
          simp only [load_module, henv, hht, hds, Option.bind_eq_bind, Option.some_bind]
          cases hsec : add_section cfg (sectionTitleFor f pt)
            (ht ++ if endsWithStr mp "model" then ADDITIONAL_INFO else "") <;>
            simp [hsec]
      · rfl

/-- C6: if any defaults file of the tree is malformed — its import fails
or a required artifact is missing — the whole discovery pass fails:
`set_defaults` returns no registry at all, so no consumer can observe a
partial schema. -/
theorem set_defaults_aborts_on_malformed
    (env : ModuleEnv) (availableMasks : List String) (tree : List PluginDir)
    (hbad : ∃ d ∈ tree, ∃ f ∈ dirDefaultsFiles d, malformedAt env d f) :
    set_defaults env availableMasks tree = none := by
  obtain ⟨d, hd, f, hf, hmal⟩ := hbad
  by_contra hne
  obtain ⟨cfg, hcfg⟩ := Option.ne_none_iff_exists'.mp hne
  obtain ⟨g, hgeq⟩ : ∃ g, set_globals emptyConfig availableMasks = some g := ⟨_, rfl⟩
  simp only [set_defaults, hgeq, Option.bind_eq_bind, Option.some_bind] at hcfg
  obtain ⟨acc1, hacc1⟩ := foldlM_isSome_of_mem _ tree g cfg hcfg d hd
  obtain ⟨r1, hr1⟩ := Option.isSome_iff_exists.mp hacc1
  obtain ⟨acc2, hacc2⟩ := foldlM_isSome_of_mem _ (dirDefaultsFiles d) acc1 r1 hr1 f hf
  obtain ⟨mod, hmod, hht, hds⟩ := load_module_isSome_sound env acc2 f d.import_path
    (lastDotComponent d.import_path) hacc2
  rw [show d.import_path ++ "." ++ splitextRoot f = moduleKey d f from rfl] at hmod
  unfold malformedAt at hmal
  rw [hmod] at hmal
  rcases hmal with h1 | h1
  · rw [h1] at hht
    cases hht
  · rw [h1] at hds
    cases hds

/-- A directory whose single defaults file has no importable module. -/
def brokenDir : PluginDir :=
  { import_path := "plugins.train.trainer", filenames := ["original_defaults.py"] }

/-- An import environment in which every import fails. -/
def brokenEnv : ModuleEnv := fun _ => none

/-- Witness for C6: with the failing import environment the malformedness
hypothesis holds and discovery returns no registry. -/
theorem set_defaults_aborts_on_malformed_witness :
    (∃ d ∈ [brokenDir], ∃ f ∈ dirDefaultsFiles d, malformedAt brokenEnv d f) ∧
    set_defaults brokenEnv ["none"] [brokenDir] = none := by
  have hbad : ∃ d ∈ [brokenDir], ∃ f ∈ dirDefaultsFiles d, malformedAt brokenEnv d f := by
    refine ⟨brokenDir, List.mem_singleton_self _, "original_defaults.py", ?_, ?_⟩
    · have hfiles : dirDefaultsFiles brokenDir = ["original_defaults.py"] := by decide
      rw [hfiles]
      exact List.mem_singleton_self _
    · simp [malformedAt, brokenEnv]
  exact ⟨hbad, set_defaults_aborts_on_malformed brokenEnv ["none"] [brokenDir] hbad⟩

/-- Spec-side alternative reading of the title computation: strip only one
trailing `"_defaults"` suffix. -/
def stripTrailingDefaultsOnly (s : String) : String :=
  if endsWithStr s "_defaults" then String.mk (s.data.take (s.data.length - 9)) else s

/-- A concrete import environment for the title-computation theorem: one
module whose file name has an interior `"_defaults"` occurrence. -/
def interiorEnv : ModuleEnv := fun key =>
  if key = "plugins.train.model.h128_defaults_lowmem_defaults" then
    some { helptext := some "interior occurrence fixture", defaults := some [] }
  else none

/-- C10: the section title is the plugin type joined by a dot to the base
name with EVERY occurrence of `"_defaults"` removed (Python `str.replace`
semantics), not merely the trailing suffix stripped: on
`"h128_defaults_lowmem_defaults.py"` discovery creates the section
`"model.h128_lowmem"`, which differs from the suffix-only reading
`"model.h128_defaults_lowmem"`. -/
theorem section_title_removes_every_defaults_occurrence :
    (∀ filename plugin_type : String,
      sectionTitleFor filename plugin_type =
        plugin_type ++ "." ++ removeAll (splitextRoot filename) "_defaults") ∧
    sectionTitleFor "h128_defaults_lowmem_defaults.py" "model" = "model.h128_lowmem" ∧
    stripTrailingDefaultsOnly (splitextRoot "h128_defaults_lowmem_defaults.py") =
      "h128_defaults_lowmem" ∧
    sectionTitleFor "h128_defaults_lowmem_defaults.py" "model" ≠
      "model." ++ stripTrailingDefaultsOnly
        (splitextRoot "h128_defaults_lowmem_defaults.py") ∧
    ∃ cfg : FaceswapConfig,
      load_module interiorEnv emptyConfig "h128_defaults_lowmem_defaults.py"
        "plugins.train.model" "model" = some cfg ∧
      cfg.sections.map ConfigSection.title = ["model.h128_lowmem"] := by
  refine ⟨fun filename plugin_type => rfl, by decide, by decide, by decide, ?_⟩
  exact ⟨_, rfl, by decide⟩

end TrainConfig

end Faceswap
